import Mathlib

/-
Verification development for the learning-progress-tracker session subsystem.

The definitions below are a shallow embedding of the JavaScript source:
  * src/services/time-tracker.js   (TimeTrackerService: the session store)
  * src/unnamed/part_008           (SessionStateManager: the client state cache)
  * src/unnamed/part_001           (ErrorHandler: validation and rate limiting)

Timestamps are modelled as Int epoch milliseconds (the JS code subtracts
Date objects, which yields milliseconds).  SQLite rows are modelled as a
list of records; the in-memory Map of active sessions is a list of cache
entries keyed by session id.  JS Math.floor(x / k) on an integer x and
positive k is Int.fdiv x k.
-/

namespace LearningTracker

/-- Status column of a time_tracking_sessions row: the schema default is
active, and the code writes completed (stop) or cancelled (cancel). -/
inductive RowStatus where
  | active
  | completed
  | cancelled
deriving DecidableEq

/-- Status field of an activeSessionsCache entry: start inserts entries with
status active, recoverIncompleteSessions inserts entries with status
recovered. -/
inductive CacheStatus where
  | active
  | recovered
deriving DecidableEq

/-- One row of the time_tracking_sessions table (time-tracker.js lines 35-46).
The created_at and updated_at bookkeeping columns and the display-only
duration_minutes are not modelled; no claim mentions them. -/
structure SessionRow where
  id : String
  userId : String
  startTime : Int
  endTime : Option Int
  durationSeconds : Option Int
  status : RowStatus
  timezoneOffset : Int
  sessionData : List (String × String)
deriving DecidableEq

/-- One entry of this.activeSessionsCache.  Entries written by
startLearningSession carry the userId; entries written by
recoverIncompleteSessions do not (lines 84-90 set only id, startTime,
status). -/
structure CacheEntry where
  id : String
  userId : Option String
  startTime : Int
  status : CacheStatus
deriving DecidableEq

/-- The state of TimeTrackerService: the durable table, the in-memory
activeSessionsCache, and the this.initialized flag set by initializeAsync
after recoverIncompleteSessions finishes. -/
structure StoreState where
  table : List SessionRow
  cache : List CacheEntry
  initialized : Bool
deriving DecidableEq

/-- The distinct rejection paths of the session store, one constructor per
reject(new Error(...)) site in time-tracker.js:
  * userAlreadyHasActiveSession : line 123, the message the spec taxonomy
    labels SESSION_ALREADY_ACTIVE;
  * noActiveSessionFound : line 182, cache miss on stop, labelled
    SESSION_NOT_FOUND by the spec;
  * sessionNotFoundOrCompleted : line 199, labelled SESSION_NOT_FOUND by
    the spec (the textually identical rejection at line 422 inside
    cancelSession is dead code, see cancelSession below);
  * sessionNotOwned : line 204, the ownership-mismatch error;
  * invalidNegativeDuration : line 214, labelled INVALID_SESSION_STATE by
    the spec;
  * primaryKeyViolation : an INSERT whose id collides with the PRIMARY KEY;
  * serviceUnavailable : the transient code the spec prescribes for
    requests arriving before recovery completes (no rejection in the
    source maps to it). -/
inductive TrackerError where
  | userAlreadyHasActiveSession
  | noActiveSessionFound
  | sessionNotFoundOrCompleted
  | sessionNotOwned
  | invalidNegativeDuration
  | primaryKeyViolation
  | serviceUnavailable
deriving DecidableEq

/-- Disposition of one store call: waitsForInit models a request parked in
the waitForInitialization polling loop (line 108 awaits it), ok a resolve,
err a reject. -/
inductive OpOutcome (α : Type) where
  | waitsForInit
  | ok (value : α)
  | err (e : TrackerError)
deriving DecidableEq

/-- Resolve value of startLearningSession (lines 160-165; the constant
status and message strings are omitted). -/
structure StartResult where
  sessionId : String
  startTime : Int
deriving DecidableEq

/-- Resolve value of stopLearningSession (lines 236-244; the rounded
durationMinutes display field and constant strings are omitted). -/
structure StopResult where
  sessionId : String
  startTime : Int
  endTime : Int
  durationSeconds : Int
deriving DecidableEq

/-- Resolve value of cancelSession (lines 428-433). -/
structure CancelResult where
  sessionId : String
  reason : String
deriving DecidableEq

/-- Resolve value of getActiveSession (lines 277-284; elapsedMinutes and the
parsed sessionData are omitted). -/
structure ActiveSessionView where
  sessionId : String
  startTime : Int
  elapsedSeconds : Int
  timezoneOffset : Int
deriving DecidableEq

/-- SQL condition status = 'active' AND end_time IS NULL, used by the
recovery scan (line 76). -/
def isActiveRow (r : SessionRow) : Bool :=
  decide (r.status = RowStatus.active ∧ r.endTime = none)

/-- SQL condition user_id = ? AND status = 'active' AND end_time IS NULL,
used by the start-time check (line 113) and by getActiveSession (line 259). -/
def isActiveRowFor (u : String) (r : SessionRow) : Bool :=
  decide (r.userId = u) && isActiveRow r

/-- The SELECT id ... LIMIT 1 check query of startLearningSession
(lines 112-114): the id of some active session of the user, if one exists.
This is the first of the two separate round trips of the check-then-insert
pair. -/
def startCheckQuery (table : List SessionRow) (u : String) : Option String :=
  (table.find? (isActiveRowFor u)).map (fun r => r.id)

/-- The INSERT of startLearningSession (lines 139-145): the second round
trip of the check-then-insert pair. -/
def insertSessionRow (table : List SessionRow) (row : SessionRow) : List SessionRow :=
  table ++ [row]

/-- this.activeSessionsCache.get(sid). -/
def cacheGet (c : List CacheEntry) (sid : String) : Option CacheEntry :=
  c.find? (fun e => decide (e.id = sid))

/-- this.activeSessionsCache.set(e.id, e): replace the entry with that key
if present, otherwise add it. -/
def cacheSet (c : List CacheEntry) (e : CacheEntry) : List CacheEntry :=
  if c.any (fun x => decide (x.id = e.id)) then
    c.map (fun x => if x.id = e.id then e else x)
  else c ++ [e]

/-- this.activeSessionsCache.delete(sid). -/
def cacheDelete (c : List CacheEntry) (sid : String) : List CacheEntry :=
  c.filter (fun e => decide (¬ e.id = sid))

/-- The sessionInfo object built by startLearningSession (lines 130-137):
the row the INSERT writes. -/
def newSessionRow (userId newId : String) (now tz : Int)
    (sessionData : List (String × String)) : SessionRow :=
  { id := newId, userId := userId, startTime := now, endTime := none,
    durationSeconds := none, status := RowStatus.active,
    timezoneOffset := tz, sessionData := sessionData }

/-- The cache entry startLearningSession writes on success (lines 153-158). -/
def newCacheEntry (userId newId : String) (now : Int) : CacheEntry :=
  { id := newId, userId := some userId, startTime := now,
    status := CacheStatus.active }

/-- startLearningSession (time-tracker.js lines 107-169).  The call first
awaits waitForInitialization (line 108): on an uninitialized store the
request is parked, modelled as waitsForInit.  Then the SELECT check
(startCheckQuery) and the INSERT (insertSessionRow) run as two separate
steps with no transaction; sequentially composed here.  newId stands for
generateSessionId(), now for new Date(), tz for getTimezoneOffset(). -/
def startLearningSession (s : StoreState) (userId : String)
    (sessionData : List (String × String)) (newId : String) (now tz : Int) :
    OpOutcome StartResult × StoreState :=
  if s.initialized = false then (OpOutcome.waitsForInit, s)
  else
    match startCheckQuery s.table userId with
    | some _ => (OpOutcome.err TrackerError.userAlreadyHasActiveSession, s)
    | none =>
      if s.table.any (fun r => decide (r.id = newId)) then
        (OpOutcome.err TrackerError.primaryKeyViolation, s)
      else
        (OpOutcome.ok { sessionId := newId, startTime := now },
         { s with
            table := insertSessionRow s.table (newSessionRow userId newId now tz sessionData),
            cache := cacheSet s.cache (newCacheEntry userId newId now) })

/-- The condition of the console.warn observability flag for long sessions
(line 217): durationSeconds > 86400. -/
def longSessionWarning (durationSeconds : Int) : Bool :=
  decide (86400 < durationSeconds)

/-- The row rewrite of the stop UPDATE (lines 222-225): SET end_time,
duration_seconds, status = 'completed' WHERE id = sid. -/
def stopUpdateRow (sid : String) (now dur : Int) (x : SessionRow) : SessionRow :=
  if x.id = sid then
    { x with endTime := some now, durationSeconds := some dur,
             status := RowStatus.completed }
  else x

/-- stopLearningSession (time-tracker.js lines 177-248).  Note that it does
NOT await waitForInitialization: it runs even on an uninitialized store.
Flow: cache lookup (line 180), SELECT ... WHERE id = ? AND status = 'active'
(lines 188-189), ownership check (line 203), duration computation with
Math.floor of a millisecond difference over 1000 (line 210), negative
rejection (line 213), UPDATE and cache delete (lines 222-234). -/
def stopLearningSession (s : StoreState) (sid uid : String) (now : Int) :
    OpOutcome StopResult × StoreState :=
  match cacheGet s.cache sid with
  | none => (OpOutcome.err TrackerError.noActiveSessionFound, s)
  | some _ =>
    match s.table.find? (fun r => decide (r.id = sid ∧ r.status = RowStatus.active)) with
    | none => (OpOutcome.err TrackerError.sessionNotFoundOrCompleted,
               { s with cache := cacheDelete s.cache sid })
    | some row =>
      if ¬ row.userId = uid then (OpOutcome.err TrackerError.sessionNotOwned, s)
      else
        if (now - row.startTime).fdiv 1000 < 0 then
          (OpOutcome.err TrackerError.invalidNegativeDuration, s)
        else
          (OpOutcome.ok { sessionId := sid, startTime := row.startTime,
                          endTime := now,
                          durationSeconds := (now - row.startTime).fdiv 1000 },
           { s with
              table := s.table.map
                (stopUpdateRow sid now ((now - row.startTime).fdiv 1000)),
              cache := cacheDelete s.cache sid })

/-- json_set(COALESCE(session_data, '\x7b\x7d'), '$.cancellation_reason', reason):
set one key of the metadata bag. -/
def jsonSetKey (kvs : List (String × String)) (k v : String) : List (String × String) :=
  kvs.filter (fun p => decide (¬ p.1 = k)) ++ [(k, v)]

/-- The row rewrite of the cancel UPDATE (lines 409-413): SET status =
'cancelled', session_data = json_set(...) WHERE id = ? AND status = 'active'. -/
def cancelUpdateRow (sid reason : String) (x : SessionRow) : SessionRow :=
  if x.id = sid ∧ x.status = RowStatus.active then
    { x with status := RowStatus.cancelled,
             sessionData := jsonSetKey x.sessionData "cancellation_reason" reason }
  else x

/-- cancelSession (time-tracker.js lines 407-436).  It does NOT await
waitForInitialization and does not consult the cache before the UPDATE.
The this.changes === 0 rejection at lines 421-423 is dead code: the
callback is bound with .bind(this) (line 434), so inside it this is the
TimeTrackerService instance, which has no changes property -- the
row-count sqlite3 exposes as the callback's own this.changes is shadowed
and the comparison undefined === 0 is always false (contrast
cleanupOldSessions, line 527, whose unbound callback reads this.changes
correctly).  So, absent a SQL error, cancel always runs the UPDATE (whose
WHERE clause touches only an active row with the given id, possibly zero
rows), deletes the cache entry and resolves success. -/
def cancelSession (s : StoreState) (sid reason : String) :
    OpOutcome CancelResult × StoreState :=
  (OpOutcome.ok { sessionId := sid, reason := reason },
   { s with table := s.table.map (cancelUpdateRow sid reason),
            cache := cacheDelete s.cache sid })

/-- recoverIncompleteSessions (time-tracker.js lines 73-99): scan the table
for rows with status = 'active' AND end_time IS NULL and rebuild the cache
from them; the rebuilt entries carry status recovered and no userId. -/
def recoverIncompleteSessions (table : List SessionRow) : List CacheEntry :=
  (table.filter isActiveRow).map (fun r =>
    { id := r.id, userId := none, startTime := r.startTime,
      status := CacheStatus.recovered })

/-- initializeAsync (lines 14-18): after table creation, run the recovery
scan and set this.initialized, yielding the booted store state for a given
durable table. -/
def serviceInit (table : List SessionRow) : StoreState :=
  { table := table, cache := recoverIncompleteSessions table,
    initialized := true }

/-- ORDER BY start_time DESC LIMIT 1 over a result list: a row with maximal
startTime, if the list is nonempty. -/
def latestByStart : List SessionRow → Option SessionRow
  | [] => none
  | r :: rs =>
    match latestByStart rs with
    | none => some r
    | some m => if r.startTime < m.startTime then some m else some r

/-- getActiveSession (time-tracker.js lines 255-287): SELECT ... WHERE
user_id = ? AND status = 'active' AND end_time IS NULL ORDER BY start_time
DESC LIMIT 1, with elapsedSeconds computed from the query-time clock now
(lines 273-275), never read from storage. -/
def getActiveSession (table : List SessionRow) (u : String) (now : Int) :
    Option ActiveSessionView :=
  match latestByStart (table.filter (isActiveRowFor u)) with
  | none => none
  | some r =>
    some { sessionId := r.id, startTime := r.startTime,
           elapsedSeconds := (now - r.startTime).fdiv 1000,
           timezoneOffset := r.timezoneOffset }

/-- calculateIntensity (time-tracker.js lines 455-461). -/
def calculateIntensity (minutes : Nat) : Nat :=
  if minutes = 0 then 0
  else if minutes < 30 then 1
  else if minutes < 60 then 2
  else if minutes < 120 then 3
  else 4

/-- The value stored by SessionStateManager under the learning_session_state
localStorage key (part_008).  Fields the JS code may leave undefined are
Options; lastUpdated is epoch milliseconds. -/
structure RawClientState where
  sessionId : Option String
  startTime : Option Int
  status : Option String
  lastUpdated : Option Int
  version : Option Nat
  pendingSync : Bool
deriving DecidableEq

/-- validateStateData (part_008 lines 142-147): the required fields
lastUpdated and version must be present. -/
def validateStateData (st : RawClientState) : Bool :=
  st.lastUpdated.isSome && st.version.isSome

/-- loadState (part_008 lines 89-123), returning the pair (returned value,
storage content afterwards).  The staleness test hoursDiff > 24 with
hoursDiff = (now - lastUpdated) / 3600000 is the exact integer comparison
now - lastUpdated > 86400000; on a stale or invalid value the code calls
clearState and returns null. -/
def loadState (stored : Option RawClientState) (now : Int) :
    Option RawClientState × Option RawClientState :=
  match stored with
  | none => (none, none)
  | some st =>
    if validateStateData st = false then (none, none)
    else
      match st.lastUpdated with
      | none => (none, none)
      | some lu =>
        if 86400000 < now - lu then (none, none)
        else (some st, some st)

/-- Return value of getRecoveryData (part_008 lines 492-499). -/
structure RecoveryData where
  sessionId : String
  startTime : Option Int
  lastUpdated : Int
  minutesAgo : Int
  canRecover : Bool
  isInterrupted : Bool
deriving DecidableEq

/-- getRecoveryData (part_008 lines 484-500): reads through loadState, so a
discarded state yields null; otherwise minutesAgo = Math.floor of the
millisecond difference over 60000 and canRecover = minutesAgo < 1440.  The
inner none branch for a missing lastUpdated is unreachable because
loadState validated the field. -/
def getRecoveryData (stored : Option RawClientState) (now : Int) :
    Option RecoveryData :=
  match (loadState stored now).1 with
  | none => none
  | some st =>
    match st.sessionId with
    | none => none
    | some sid =>
      match st.lastUpdated with
      | none => none
      | some lu =>
        some { sessionId := sid, startTime := st.startTime, lastUpdated := lu,
               minutesAgo := (now - lu).fdiv 60000,
               canRecover := decide ((now - lu).fdiv 60000 < 1440),
               isInterrupted := decide (st.status = some "interrupted") }

/-- this.rateLimitWindow (part_001 line 68): 60000 ms. -/
def rateLimitWindowMs : Int := 60000

/-- this.maxRequestsPerWindow (part_001 line 69): 100. -/
def maxRequestsPerWindow : Nat := 100

/-- checkRateLimit (part_001 lines 287-310) for one identifier: filter the
recorded timestamps to those strictly inside the sliding window, deny with
the stored list untouched when the count has reached the cap, otherwise
record the request. -/
def checkRateLimit (requests : List Int) (now : Int) : Bool × List Int :=
  let validRequests := requests.filter (fun t => decide (now - rateLimitWindowMs < t))
  if maxRequestsPerWindow ≤ validRequests.length then (false, requests)
  else (true, validRequests ++ [now])

/-- A sequence of requests from one identifier fed through checkRateLimit,
returning each verdict and the final recorded list. -/
def runLimiter : List Int → List Int → List Bool × List Int
  | [], acc => ([], acc)
  | t :: ts, acc =>
    match checkRateLimit acc t with
    | (allowed, acc2) =>
      match runLimiter ts acc2 with
      | (results, accF) => (allowed :: results, accF)

/-- The error payload handleError sends for a TimeTrackingError: the HTTP
status from error.statusCode and the machine code from error.code
(part_001 lines 99-109). -/
structure ErrorResponse where
  httpStatus : Nat
  code : String
deriving DecidableEq

/-- rateLimitMiddleware (part_001 lines 334-351) for one identifier: on
denial it responds through handleError with the TimeTrackingError built
from code RATE_LIMIT_EXCEEDED and statusCode 429; on success it calls
next(). -/
def rateLimitMiddleware (requests : List Int) (now : Int) :
    Option ErrorResponse × List Int :=
  match checkRateLimit requests now with
  | (true, requests2) => (none, requests2)
  | (false, requests2) =>
    (some { httpStatus := 429, code := "RATE_LIMIT_EXCEEDED" }, requests2)

/-! Helper lemmas about the cache and table encodings. -/

lemma find_none_of_all {α : Type} {p : α → Bool} {l : List α}
    (h : ∀ x ∈ l, p x = false) : l.find? p = none := by
  rw [List.find?_eq_none]
  intro x hx
  simp [h x hx]

lemma cacheGet_delete_self (c : List CacheEntry) (sid : String) :
    cacheGet (cacheDelete c sid) sid = none := by
  apply find_none_of_all
  intro e he
  have := (List.mem_filter.1 he).2
  simp only [decide_eq_true_eq] at this
  simp [this]

lemma cacheGet_append_fresh {c : List CacheEntry} {sid : String}
    (h : ∀ x ∈ c, ¬ x.id = sid) (e : CacheEntry) (he : e.id = sid) :
    cacheGet (c ++ [e]) sid = some e := by
  unfold cacheGet
  have h1 : c.find? (fun x => decide (x.id = sid)) = none :=
    find_none_of_all (by intro x hx; simp [h x hx])
  rw [List.find?_append, h1]
  simp [List.find?, he]

lemma cacheSet_fresh {c : List CacheEntry} {e : CacheEntry}
    (h : ∀ x ∈ c, ¬ x.id = e.id) : cacheSet c e = c ++ [e] := by
  unfold cacheSet
  have : c.any (fun x => decide (x.id = e.id)) = false := by
    rw [List.any_eq_false]
    intro x hx
    simp [h x hx]
  simp [this]

lemma find_append_of_none {α : Type} {p : α → Bool} {l : List α}
    (h : l.find? p = none) (x : α) (hx : p x = true) :
    (l ++ [x]).find? p = some x := by
  rw [List.find?_append, h]
  simp [List.find?, hx]

lemma filter_id_unique {l : List SessionRow} (h : (l.map SessionRow.id).Nodup)
    {r : SessionRow} (hr : r ∈ l) :
    l.filter (fun x => decide (x.id = r.id)) = [r] := by
  induction l with
  | nil => cases hr
  | cons a l ih =>
    rw [List.map_cons, List.nodup_cons] at h
    rcases List.mem_cons.1 hr with rfl | hmem
    · have hrest : l.filter (fun x => decide (x.id = r.id)) = [] := by
        apply List.filter_eq_nil_iff.2
        intro x hx
        simp only [decide_eq_true_eq]
        intro hid
        exact h.1 (hid ▸ List.mem_map_of_mem SessionRow.id hx)
      simp [List.filter_cons, hrest]
    · have hane : ¬ a.id = r.id := by
        intro hid
        exact h.1 (hid ▸ List.mem_map_of_mem SessionRow.id hmem)
      simp [List.filter_cons, hane, ih h.2 hmem]

lemma row_eq_of_nodup_ids {l : List SessionRow} (h : (l.map SessionRow.id).Nodup)
    {x y : SessionRow} (hx : x ∈ l) (hy : y ∈ l) (hid : x.id = y.id) : x = y :=
  List.inj_on_of_nodup_map h hx hy hid

/-! Claim theorems. -/

/-- C7: the intensity bucket function maps 0 minutes to 0, (0, 30) to 1,
[30, 60) to 2, [60, 120) to 3 and everything from 120 up to 4; in
particular the spec boundary examples 29, 30, 59, 60, 119 and 120 map to
1, 2, 2, 3, 3 and 4. -/
theorem calculateIntensity_buckets (m : Nat) :
    calculateIntensity 0 = 0
    ∧ (0 < m → m < 30 → calculateIntensity m = 1)
    ∧ (30 ≤ m → m < 60 → calculateIntensity m = 2)
    ∧ (60 ≤ m → m < 120 → calculateIntensity m = 3)
    ∧ (120 ≤ m → calculateIntensity m = 4)
    ∧ calculateIntensity 29 = 1 ∧ calculateIntensity 30 = 2
    ∧ calculateIntensity 59 = 2 ∧ calculateIntensity 60 = 3
    ∧ calculateIntensity 119 = 3 ∧ calculateIntensity 120 = 4 := by
  refine ⟨rfl, ?_, ?_, ?_, ?_, rfl, rfl, rfl, rfl, rfl, rfl⟩ <;>
    · intros
      unfold calculateIntensity
      split <;> try omega
      all_goals (split <;> try omega)
      all_goals (split <;> try omega)
      all_goals (split <;> omega)

/-- Witness for C7 at minutes = 45. -/
theorem calculateIntensity_buckets_witness :
    30 ≤ 45 ∧ 45 < 60 ∧ calculateIntensity 45 = 2 :=
  ⟨by decide, by decide,
    (calculateIntensity_buckets 45).2.2.1 (by decide) (by decide)⟩

/-- Row inserted by the first of two interleaved start calls. -/
def raceRowA : SessionRow :=
  { id := "session_1_aaaaaaaaa", userId := "default_user", startTime := 0,
    endTime := none, durationSeconds := none, status := RowStatus.active,
    timezoneOffset := 0, sessionData := [] }

/-- Row inserted by the second of two interleaved start calls. -/
def raceRowB : SessionRow :=
  { raceRowA with id := "session_1_bbbbbbbbb" }

/-- C1 is violated by the code: startLearningSession runs its existence
check (startCheckQuery, the SELECT of lines 112-116) and its insert
(insertSessionRow, the INSERT of lines 139-146) as two separate async
round trips with no transaction and no uniqueness constraint, so in the
interleaving check-A, check-B, insert-A, insert-B over an initially empty
table both checks find no active session, both inserts run, and the store
ends with two status = active rows for default_user -- the single-active-
session invariant does not hold in every reachable state and the two
concurrent calls both succeed. -/
theorem startSession_check_insert_race :
    startCheckQuery ([] : List SessionRow) "default_user" = none
    ∧ ¬ raceRowA.id = raceRowB.id
    ∧ ((insertSessionRow (insertSessionRow ([] : List SessionRow) raceRowA)
          raceRowB).filter (isActiveRowFor "default_user")).length = 2 := by
  decide

/-- The durable row present before the simulated restart used against C6. -/
def bootRow : SessionRow :=
  { id := "session_1_ccccccccc", userId := "default_user", startTime := 0,
    endTime := none, durationSeconds := none, status := RowStatus.active,
    timezoneOffset := 0, sessionData := [] }

/-- The store immediately after construction, before initializeAsync has run
recoverIncompleteSessions: the durable table already holds bootRow, the
cache is still empty and this.initialized is false. -/
def preInitState : StoreState :=
  { table := [bootRow], cache := [], initialized := false }

/-- C6 is violated by the code: only startLearningSession awaits
waitForInitialization.  In the pre-recovery state, stopLearningSession
executes immediately and rejects with the cache-miss error (spec code
SESSION_NOT_FOUND) -- it neither waits nor returns SERVICE_UNAVAILABLE --
and cancelSession executes immediately and mutates the durable table while
the recovery scan is still pending; start, by contrast, is parked by the
initialization gate. -/
theorem stop_cancel_bypass_init_gate :
    preInitState.initialized = false
    ∧ stopLearningSession preInitState "session_1_ccccccccc" "default_user" 1000 =
        (OpOutcome.err TrackerError.noActiveSessionFound, preInitState)
    ∧ (stopLearningSession preInitState "session_1_ccccccccc" "default_user" 1000).1 ≠
        OpOutcome.waitsForInit
    ∧ (stopLearningSession preInitState "session_1_ccccccccc" "default_user" 1000).1 ≠
        OpOutcome.err TrackerError.serviceUnavailable
    ∧ cancelSession preInitState "session_1_ccccccccc" "user declined recovery" =
        (OpOutcome.ok { sessionId := "session_1_ccccccccc",
                        reason := "user declined recovery" },
         { table := [{ bootRow with
                        status := RowStatus.cancelled,
                        sessionData :=
                          [("cancellation_reason", "user declined recovery")] }],
           cache := [], initialized := false })
    ∧ ¬ (cancelSession preInitState "session_1_ccccccccc"
          "user declined recovery").2.table = preInitState.table
    ∧ startLearningSession preInitState "default_user" [] "session_1_ddddddddd" 5 0 =
        (OpOutcome.waitsForInit, preInitState) := by
  decide

/-- C2: when the store is initialized and some row of the table is an
active session of user u (status = active, end_time null), a further
startLearningSession call for u rejects with the line-123 error (the
rejection the spec taxonomy labels SESSION_ALREADY_ACTIVE) and returns the
store state unchanged: no new row is inserted and the pre-existing active
row keeps its id, startTime, status and metadata. -/
theorem start_second_session_fails
    (s : StoreState) (u newId : String) (meta : List (String × String))
    (now tz : Int) (r : SessionRow)
    (hinit : s.initialized = true) (hr : r ∈ s.table)
    (hu : r.userId = u) (hact : r.status = RowStatus.active)
    (hend : r.endTime = none) :
    startLearningSession s u meta newId now tz =
      (OpOutcome.err TrackerError.userAlreadyHasActiveSession, s) := by
  have hp : isActiveRowFor u r = true := by
    simp [isActiveRowFor, isActiveRow, hu, hact, hend]
  have hsome : (s.table.find? (isActiveRowFor u)).isSome := by
    rw [List.find?_isSome]
    exact ⟨r, hr, hp⟩
  obtain ⟨y, hy⟩ := Option.isSome_iff_exists.1 hsome
  simp [startLearningSession, startCheckQuery, hinit, hy]

/-- Active row used by the C2 witness. -/
def c2Row : SessionRow :=
  { id := "session_1_eeeeeeeee", userId := "bob", startTime := 0,
    endTime := none, durationSeconds := none, status := RowStatus.active,
    timezoneOffset := 0, sessionData := [("topic", "lean")] }

/-- Store used by the C2 witness. -/
def c2State : StoreState :=
  { table := [c2Row],
    cache := [{ id := "session_1_eeeeeeeee", userId := some "bob",
                startTime := 0, status := CacheStatus.active }],
    initialized := true }

/-- Witness for C2: bob already has an active session, so a second start
fails and the store is untouched. -/
theorem start_second_session_fails_witness :
    startLearningSession c2State "bob" [] "session_1_fffffffff" 10 0 =
      (OpOutcome.err TrackerError.userAlreadyHasActiveSession, c2State) :=
  start_second_session_fails c2State "bob" "session_1_fffffffff" [] 10 0 c2Row
    rfl (by decide) rfl rfl rfl

lemma stop_of_cache_miss {s : StoreState} {sid uid : String} {now : Int}
    (h : cacheGet s.cache sid = none) :
    stopLearningSession s sid uid now =
      (OpOutcome.err TrackerError.noActiveSessionFound, s) := by
  simp [stopLearningSession, h]

lemma stop_success_eq {s : StoreState} {sid uid : String} {now : Int}
    {e : CacheEntry} {row : SessionRow}
    (hget : cacheGet s.cache sid = some e)
    (hfind : s.table.find?
      (fun r => decide (r.id = sid ∧ r.status = RowStatus.active)) = some row)
    (huid : row.userId = uid)
    (hnn : ¬ (now - row.startTime).fdiv 1000 < 0) :
    stopLearningSession s sid uid now =
      (OpOutcome.ok
        { sessionId := sid, startTime := row.startTime, endTime := now,
          durationSeconds := (now - row.startTime).fdiv 1000 },
       { s with
          table := s.table.map (stopUpdateRow sid now ((now - row.startTime).fdiv 1000)),
          cache := cacheDelete s.cache sid }) := by
  unfold stopLearningSession
  rw [hget, hfind]
  simp [huid, hnn]

lemma stop_negative_eq {s : StoreState} {sid uid : String} {now : Int}
    {e : CacheEntry} {row : SessionRow}
    (hget : cacheGet s.cache sid = some e)
    (hfind : s.table.find?
      (fun r => decide (r.id = sid ∧ r.status = RowStatus.active)) = some row)
    (huid : row.userId = uid)
    (hneg : (now - row.startTime).fdiv 1000 < 0) :
    stopLearningSession s sid uid now =
      (OpOutcome.err TrackerError.invalidNegativeDuration, s) := by
  unfold stopLearningSession
  rw [hget, hfind]
  simp [huid, hneg]

/-- C4: stopping a session whose id is absent from the active-session cache
rejects with the line-182 error; stopping one that is cached but has no
active row in the table (already completed or cancelled, or never durably
present) rejects with the line-199 error after pruning the stale cache
entry -- both rejections are the failures the spec taxonomy labels
SESSION_NOT_FOUND.  Consequently stop is non-idempotent: whenever a stop
call succeeds, an immediately repeated stop of the same id rejects with
the cache-miss error, because the first call removed the id from the
cache. -/
theorem stop_missing_or_completed_not_found
    (s : StoreState) (sid uid : String) (now now2 : Int) :
    (cacheGet s.cache sid = none →
      stopLearningSession s sid uid now =
        (OpOutcome.err TrackerError.noActiveSessionFound, s))
    ∧ ((cacheGet s.cache sid).isSome →
        (∀ x ∈ s.table, ¬ (x.id = sid ∧ x.status = RowStatus.active)) →
        stopLearningSession s sid uid now =
          (OpOutcome.err TrackerError.sessionNotFoundOrCompleted,
            { s with cache := cacheDelete s.cache sid }))
    ∧ (∀ res s2, stopLearningSession s sid uid now = (OpOutcome.ok res, s2) →
        stopLearningSession s2 sid uid now2 =
          (OpOutcome.err TrackerError.noActiveSessionFound, s2)) := by
  refine ⟨fun h => stop_of_cache_miss h, ?_, ?_⟩
  · intro hsome hnone
    obtain ⟨e, he⟩ := Option.isSome_iff_exists.1 hsome
    have hfind : s.table.find?
        (fun r => decide (r.id = sid ∧ r.status = RowStatus.active)) = none := by
      apply find_none_of_all
      intro x hx
      simp [hnone x hx]
    unfold stopLearningSession
    rw [he, hfind]
  · intro res s2 hok
    unfold stopLearningSession at hok
    split at hok
    · simp at hok
    · split at hok
      · simp at hok
      · split at hok
        · simp at hok
        · split at hok
          · simp at hok
          · injection hok with h1 h2
            subst h2
            exact stop_of_cache_miss (cacheGet_delete_self s.cache sid)

/-- Active row used by the C4 witness. -/
def c4Row : SessionRow :=
  { id := "session_1_ggggggggg", userId := "carol", startTime := 0,
    endTime := none, durationSeconds := none, status := RowStatus.active,
    timezoneOffset := 0, sessionData := [] }

/-- Store used by the C4 witness, before the first stop. -/
def c4State : StoreState :=
  { table := [c4Row],
    cache := [{ id := "session_1_ggggggggg", userId := some "carol",
                startTime := 0, status := CacheStatus.active }],
    initialized := true }

/-- c4Row as completed by a stop at time 5000 ms. -/
def c4StoppedRow : SessionRow :=
  { c4Row with endTime := some 5000, durationSeconds := some 5,
               status := RowStatus.completed }

/-- Store reached by stopping c4Row at time 5000 ms. -/
def c4Stopped : StoreState :=
  { table := [c4StoppedRow], cache := [], initialized := true }

/-- Witness for C4: after carol stops her session at 5000 ms, stopping the
same id again fails with the cache-miss error. -/
theorem stop_missing_or_completed_not_found_witness :
    stopLearningSession c4Stopped "session_1_ggggggggg" "carol" 6000 =
      (OpOutcome.err TrackerError.noActiveSessionFound, c4Stopped) :=
  (stop_missing_or_completed_not_found c4State "session_1_ggggggggg" "carol"
      5000 6000).2.2
    { sessionId := "session_1_ggggggggg", startTime := 0, endTime := 5000,
      durationSeconds := 5 }
    c4Stopped (by decide)

/-- C3: starting a session and then stopping it as its owner computes
durationSeconds as the floored second difference now - startTime, the
result is nonnegative and the session ends completed both in the returned
value and in the durable row; a stop whose computed duration would be
negative is rejected with the line-214 error (spec code
INVALID_SESSION_STATE) leaving the store exactly as it was, while a
duration beyond 86400 seconds is still accepted by the very same success
path (now2 is unconstrained above now1) and merely trips the line-217
console.warn flag, modelled by longSessionWarning. -/
theorem start_stop_duration_completed
    (s : StoreState) (u newId : String) (meta : List (String × String))
    (now1 tz now2 : Int)
    (hinit : s.initialized = true)
    (hnoact : ∀ r ∈ s.table, isActiveRowFor u r = false)
    (hfresh : ∀ r ∈ s.table, ¬ r.id = newId)
    (hfreshC : ∀ e ∈ s.cache, ¬ e.id = newId)
    (hord : now1 ≤ now2) :
    ∃ s1 s2 res2,
      startLearningSession s u meta newId now1 tz =
        (OpOutcome.ok { sessionId := newId, startTime := now1 }, s1)
      ∧ stopLearningSession s1 newId u now2 = (OpOutcome.ok res2, s2)
      ∧ res2.durationSeconds = (now2 - now1).fdiv 1000
      ∧ 0 ≤ res2.durationSeconds
      ∧ res2.endTime = now2
      ∧ (∃ r ∈ s2.table, r.id = newId ∧ r.status = RowStatus.completed
          ∧ r.durationSeconds = some res2.durationSeconds ∧ r.endTime = some now2)
      ∧ (∀ nowNeg : Int, (nowNeg - now1).fdiv 1000 < 0 →
          stopLearningSession s1 newId u nowNeg =
            (OpOutcome.err TrackerError.invalidNegativeDuration, s1))
      ∧ (86400 < res2.durationSeconds →
          longSessionWarning res2.durationSeconds = true) := by
  have hchk : startCheckQuery s.table u = none := by
    unfold startCheckQuery
    rw [find_none_of_all hnoact]
    rfl
  have hany : s.table.any (fun r => decide (r.id = newId)) = false := by
    rw [List.any_eq_false]
    intro x hx
    simp [hfresh x hx]
  have hset : cacheSet s.cache (newCacheEntry u newId now1) =
      s.cache ++ [newCacheEntry u newId now1] :=
    cacheSet_fresh (by intro x hx; exact hfreshC x hx)
  have hstart : startLearningSession s u meta newId now1 tz =
      (OpOutcome.ok { sessionId := newId, startTime := now1 },
       { s with
          table := s.table ++ [newSessionRow u newId now1 tz meta],
          cache := s.cache ++ [newCacheEntry u newId now1] }) := by
    unfold startLearningSession
    rw [hinit, hchk, hany]
    simp [insertSessionRow, hset]
  have hget : cacheGet (s.cache ++ [newCacheEntry u newId now1]) newId =
      some (newCacheEntry u newId now1) :=
    cacheGet_append_fresh hfreshC _ rfl
  have hfindrow : (s.table ++ [newSessionRow u newId now1 tz meta]).find?
        (fun r => decide (r.id = newId ∧ r.status = RowStatus.active)) =
      some (newSessionRow u newId now1 tz meta) := by
    apply find_append_of_none
    · apply find_none_of_all
      intro x hx
      simp [hfresh x hx]
    · simp [newSessionRow]
  have hdur : 0 ≤ (now2 - now1).fdiv 1000 :=
    Int.fdiv_nonneg (by omega) (by norm_num)
  refine ⟨_, _, _, hstart,
    stop_success_eq hget hfindrow rfl (not_lt.mpr hdur), rfl, hdur, rfl,
    ?_, ?_, ?_⟩
  · refine ⟨stopUpdateRow newId now2 ((now2 - now1).fdiv 1000)
        (newSessionRow u newId now1 tz meta),
      List.mem_map_of_mem _ (by simp), ?_, ?_, ?_, ?_⟩
    · simp [stopUpdateRow, newSessionRow]
    · simp [stopUpdateRow, newSessionRow]
    · simp [stopUpdateRow, newSessionRow]
    · simp [stopUpdateRow, newSessionRow]
  · intro nowNeg hneg
    exact stop_negative_eq hget hfindrow rfl hneg
  · intro hlong
    simp [longSessionWarning, hlong]

/-- Store used by the C3 witness: booted, empty table and cache. -/
def c3Base : StoreState := { table := [], cache := [], initialized := true }

/-- Witness for C3, the spec scenario: alice starts at 0 ms and stops at
125000 ms. -/
theorem start_stop_duration_completed_witness :
    c3Base.initialized = true
    ∧ ∃ s1 s2 res2,
        startLearningSession c3Base "alice" [] "session_1_hhhhhhhhh" 0 0 =
          (OpOutcome.ok { sessionId := "session_1_hhhhhhhhh", startTime := 0 }, s1)
        ∧ stopLearningSession s1 "session_1_hhhhhhhhh" "alice" 125000 =
            (OpOutcome.ok res2, s2)
        ∧ res2.durationSeconds = ((125000 : Int) - 0).fdiv 1000
        ∧ 0 ≤ res2.durationSeconds
        ∧ res2.endTime = 125000
        ∧ (∃ r ∈ s2.table, r.id = "session_1_hhhhhhhhh"
            ∧ r.status = RowStatus.completed
            ∧ r.durationSeconds = some res2.durationSeconds
            ∧ r.endTime = some 125000)
        ∧ (∀ nowNeg : Int, (nowNeg - 0).fdiv 1000 < 0 →
            stopLearningSession s1 "session_1_hhhhhhhhh" "alice" nowNeg =
              (OpOutcome.err TrackerError.invalidNegativeDuration, s1))
        ∧ (86400 < res2.durationSeconds →
            longSessionWarning res2.durationSeconds = true) :=
  ⟨rfl, start_stop_duration_completed c3Base "alice" "session_1_hhhhhhhhh" []
    0 0 125000 rfl (by decide) (by decide) (by decide) (by decide)⟩

/-- C5: when exactly one durable row is active with a null end_time, the
boot-time recovery scan rebuilds the in-memory index as exactly the
summary entry of that row, and getActiveSession for the row's owner
returns a non-null view whose elapsedSeconds is computed from the
query-time clock now as the floored second difference now - startTime --
the universally quantified now shows the value is recomputed per call,
never read from storage. -/
theorem recovery_rebuilds_active_index
    (table : List SessionRow) (r : SessionRow) (now : Int)
    (h : table.filter isActiveRow = [r]) :
    recoverIncompleteSessions table =
      [{ id := r.id, userId := none, startTime := r.startTime,
         status := CacheStatus.recovered }]
    ∧ (serviceInit table).initialized = true
    ∧ getActiveSession table r.userId now =
      some { sessionId := r.id, startTime := r.startTime,
             elapsedSeconds := (now - r.startTime).fdiv 1000,
             timezoneOffset := r.timezoneOffset } := by
  refine ⟨?_, rfl, ?_⟩
  · unfold recoverIncompleteSessions
    rw [h]
    rfl
  · unfold getActiveSession
    have hf : table.filter (isActiveRowFor r.userId) = [r] := by
      have h2 : table.filter (isActiveRowFor r.userId) =
          (table.filter isActiveRow).filter (fun x => decide (x.userId = r.userId)) := by
        rw [List.filter_filter]
        rfl
      rw [h2, h]
      simp [List.filter]
    rw [hf]
    rfl

/-- Durable row used by the C5 witness. -/
def c5Row : SessionRow :=
  { id := "session_1_lllllllll", userId := "erin", startTime := 7000,
    endTime := none, durationSeconds := none, status := RowStatus.active,
    timezoneOffset := -60, sessionData := [] }

/-- A completed row also present in the C5 witness table, to show the scan
ignores non-active rows. -/
def c5DoneRow : SessionRow :=
  { id := "session_1_mmmmmmmmm", userId := "erin", startTime := 0,
    endTime := some 1000, durationSeconds := some 1,
    status := RowStatus.completed, timezoneOffset := -60, sessionData := [] }

/-- Witness for C5: a table with one completed and one active row, queried
at 127000 ms. -/
theorem recovery_rebuilds_active_index_witness :
    recoverIncompleteSessions [c5DoneRow, c5Row] =
      [{ id := c5Row.id, userId := none, startTime := c5Row.startTime,
         status := CacheStatus.recovered }]
    ∧ (serviceInit [c5DoneRow, c5Row]).initialized = true
    ∧ getActiveSession [c5DoneRow, c5Row] c5Row.userId 127000 =
      some { sessionId := c5Row.id, startTime := c5Row.startTime,
             elapsedSeconds := ((127000 : Int) - c5Row.startTime).fdiv 1000,
             timezoneOffset := c5Row.timezoneOffset } :=
  recovery_rebuilds_active_index [c5DoneRow, c5Row] c5Row 127000 (by decide)

/-- Client state saved at lastUpdated = 0 used against C8. -/
def c8State : RawClientState :=
  { sessionId := some "session_1_nnnnnnnnn", startTime := some 0,
    status := some "interrupted", lastUpdated := some 0,
    version := some 1, pendingSync := false }

/-- C8 counterexample: for a state saved at T = 0 and inspected at
T + 30h = 108000000 ms, load() does return null and discards the stored
value, but getRecoveryData() returns null as well -- it does not report
canRecover = false, because it reads through load(), which has already
discarded the state.  The claim that getRecoveryData reports
canRecover = false at T + 30h is therefore false at this input. -/
theorem stale_recovery_data_returns_none_cex :
    loadState (some c8State) 108000000 = (none, none)
    ∧ getRecoveryData (some c8State) 108000000 = none := by
  decide

/-- C8 amended: for every stored state whose lastUpdated is more than 24
hours (86400000 ms) before the inspection time, load() returns null and
discards the stored value, and getRecoveryData() returns null -- no
recovery data at all, rather than a record with canRecover = false. -/
theorem stale_state_load_and_recovery_null
    (st : RawClientState) (lu now : Int)
    (hval : validateStateData st = true)
    (hlu : st.lastUpdated = some lu)
    (hstale : 86400000 < now - lu) :
    loadState (some st) now = (none, none)
    ∧ getRecoveryData (some st) now = none := by
  have hload : loadState (some st) now = (none, none) := by
    simp [loadState, hval, hlu, hstale]
  refine ⟨hload, ?_⟩
  unfold getRecoveryData
  rw [hload]

/-- Witness for the amended C8 at the concrete stale state. -/
theorem stale_state_load_and_recovery_null_witness :
    validateStateData c8State = true
    ∧ loadState (some c8State) 108000000 = (none, none)
    ∧ getRecoveryData (some c8State) 108000000 = none :=
  ⟨by decide,
   (stale_state_load_and_recovery_null c8State 0 108000000 (by decide) rfl
     (by decide)).1,
   (stale_state_load_and_recovery_null c8State 0 108000000 (by decide) rfl
     (by decide)).2⟩

lemma limiter_in_window_all_allowed (ts : List Int) :
    ∀ (acc : List Int) (t0 : Int),
      (∀ t ∈ acc, t0 ≤ t ∧ t < t0 + 60000) →
      (∀ t ∈ ts, t0 ≤ t ∧ t < t0 + 60000) →
      acc.length + ts.length ≤ 100 →
      runLimiter ts acc = (List.replicate ts.length true, acc ++ ts) := by
  induction ts with
  | nil =>
    intro acc t0 _ _ _
    simp [runLimiter]
  | cons t ts ih =>
    intro acc t0 hacc hts hlen
    have hfilter : acc.filter (fun x => decide (t - rateLimitWindowMs < x)) = acc := by
      apply List.filter_eq_self.2
      intro a ha
      have h1 := hacc a ha
      have h2 := hts t (List.mem_cons_self t ts)
      simp only [decide_eq_true_eq, rateLimitWindowMs]
      omega
    have hlt : ¬ maxRequestsPerWindow ≤ acc.length := by
      simp only [maxRequestsPerWindow]
      simp only [List.length_cons] at hlen
      omega
    have hcheck : checkRateLimit acc t = (true, acc ++ [t]) := by
      simp only [checkRateLimit]
      rw [hfilter, if_neg hlt]
    have hrec : runLimiter ts (acc ++ [t]) =
        (List.replicate ts.length true, (acc ++ [t]) ++ ts) := by
      apply ih (acc ++ [t]) t0
      · intro x hx
        rcases List.mem_append.1 hx with hx | hx
        · exact hacc x hx
        · rw [List.mem_singleton.1 hx]
          exact hts t (List.mem_cons_self t ts)
      · intro x hx
        exact hts x (List.mem_cons_of_mem t hx)
      · simp only [List.length_append, List.length_singleton]
        simp only [List.length_cons] at hlen
        omega
    simp [runLimiter, hcheck, hrec, List.replicate_succ]

/-- C9: if 100 request timestamps all lie inside one 60-second window
[t0, t0 + 60000), feeding them to checkRateLimit from an empty record
allows every one of them; a 101st request inside the same window is denied
with the recorded list untouched (no side effect), and the middleware then
responds with HTTP status 429 and code RATE_LIMIT_EXCEEDED; once all the
recorded timestamps have aged out of the sliding window of a later request
time t2, that request is allowed again. -/
theorem rate_limiter_window_behavior
    (t0 : Int) (ts : List Int) (t101 t2 : Int)
    (hlen : ts.length = 100)
    (hwin : ∀ t ∈ ts, t0 ≤ t ∧ t < t0 + 60000)
    (h101 : t0 ≤ t101 ∧ t101 < t0 + 60000)
    (hafter : ∀ t ∈ ts, t ≤ t2 - 60000) :
    runLimiter ts [] = (List.replicate 100 true, ts)
    ∧ checkRateLimit ts t101 = (false, ts)
    ∧ rateLimitMiddleware ts t101 =
        (some { httpStatus := 429, code := "RATE_LIMIT_EXCEEDED" }, ts)
    ∧ checkRateLimit ts t2 = (true, [t2]) := by
  have hdeny : checkRateLimit ts t101 = (false, ts) := by
    have hfilter : ts.filter (fun x => decide (t101 - rateLimitWindowMs < x)) = ts := by
      apply List.filter_eq_self.2
      intro a ha
      have h1 := hwin a ha
      simp only [decide_eq_true_eq, rateLimitWindowMs]
      omega
    have hge : maxRequestsPerWindow ≤ ts.length := by
      simp [maxRequestsPerWindow, hlen]
    simp only [checkRateLimit]
    rw [hfilter, if_pos hge]
  refine ⟨?_, hdeny, ?_, ?_⟩
  · have := limiter_in_window_all_allowed ts [] t0 (by intro t ht; cases ht)
      hwin (by simp [hlen])
    rw [hlen] at this
    simpa using this
  · simp only [rateLimitMiddleware]
    rw [hdeny]
  · have hfilter : ts.filter (fun x => decide (t2 - rateLimitWindowMs < x)) = [] := by
      apply List.filter_eq_nil_iff.2
      intro a ha
      have h1 := hafter a ha
      simp only [decide_eq_true_eq, rateLimitWindowMs]
      omega
    have hlt : ¬ maxRequestsPerWindow ≤ ([] : List Int).length := by
      simp [maxRequestsPerWindow]
    simp only [checkRateLimit]
    rw [hfilter, if_neg hlt]
    rfl

/-- Witness for C9: 100 requests at time 0, a 101st at time 0, and a later
request at time 60000, when every earlier timestamp has aged out. -/
theorem rate_limiter_window_behavior_witness :
    (List.replicate 100 (0 : Int)).length = 100
    ∧ (runLimiter (List.replicate 100 (0 : Int)) [] =
        (List.replicate 100 true, List.replicate 100 (0 : Int))
      ∧ checkRateLimit (List.replicate 100 (0 : Int)) 0 =
          (false, List.replicate 100 (0 : Int))
      ∧ rateLimitMiddleware (List.replicate 100 (0 : Int)) 0 =
          (some { httpStatus := 429, code := "RATE_LIMIT_EXCEEDED" },
           List.replicate 100 (0 : Int))
      ∧ checkRateLimit (List.replicate 100 (0 : Int)) 60000 = (true, [60000])) :=
  ⟨by decide,
   rate_limiter_window_behavior 0 (List.replicate 100 (0 : Int)) 0 60000
     (by decide) (by decide) (by decide) (by decide)⟩

lemma stopUpdateRow_id (sid : String) (now dur : Int) (x : SessionRow) :
    (stopUpdateRow sid now dur x).id = x.id := by
  unfold stopUpdateRow
  split <;> rfl

lemma cancelUpdateRow_id (sid reason : String) (x : SessionRow) :
    (cancelUpdateRow sid reason x).id = x.id := by
  unfold cancelUpdateRow
  split <;> rfl

lemma filter_map_id_pres {g : SessionRow → SessionRow}
    (hg : ∀ x, (g x).id = x.id) (l : List SessionRow) (i : String) :
    (l.map g).filter (fun x => decide (x.id = i)) =
      (l.filter (fun x => decide (x.id = i))).map g := by
  induction l with
  | nil => rfl
  | cons a l ih =>
    simp only [List.map_cons, List.filter_cons, hg a]
    by_cases h : a.id = i
    · simp [h, ih]
    · simp [h, ih]

lemma stop_table_cases (s : StoreState) (sid uid : String) (now : Int) :
    (stopLearningSession s sid uid now).2.table = s.table ∨
    ∃ row, s.table.find?
        (fun r => decide (r.id = sid ∧ r.status = RowStatus.active)) = some row
      ∧ (stopLearningSession s sid uid now).2.table =
          s.table.map (stopUpdateRow sid now ((now - row.startTime).fdiv 1000)) := by
  cases hc : cacheGet s.cache sid with
  | none =>
    left
    rw [stop_of_cache_miss hc]
  | some e =>
    cases hf : s.table.find?
        (fun r => decide (r.id = sid ∧ r.status = RowStatus.active)) with
    | none =>
      left
      unfold stopLearningSession
      rw [hc, hf]
    | some row =>
      by_cases hu : row.userId = uid
      · by_cases hneg : (now - row.startTime).fdiv 1000 < 0
        · left
          rw [stop_negative_eq hc hf hu hneg]
        · right
          exact ⟨row, rfl, by rw [stop_success_eq hc hf hu hneg]⟩
      · left
        unfold stopLearningSession
        rw [hc, hf]
        simp [hu]

lemma cancel_table_eq (s : StoreState) (sid reason : String) :
    (cancelSession s sid reason).2.table = s.table.map (cancelUpdateRow sid reason) :=
  rfl

lemma map_id_on {l : List SessionRow} {f : SessionRow → SessionRow}
    (h : ∀ x ∈ l, f x = x) : l.map f = l := by
  induction l with
  | nil => rfl
  | cons a l ih =>
    rw [List.map_cons, h a (List.mem_cons_self a l),
      ih (fun x hx => h x (List.mem_cons_of_mem a hx))]

/-- C10 amended: terminal rows are immutable, but a cancel aimed at one
does not fail.  In a store with primary-key-unique row ids, a row r whose
status is completed or cancelled survives any stop or cancel call byte
for byte (the rows carrying its id after the call are exactly [r]); a
stop aimed directly at r.id rejects with one of its two not-found errors
and leaves the durable table fully unchanged; a cancel aimed at r.id
resolves success while leaving the durable table fully unchanged -- its
UPDATE matches zero rows and only the in-memory cache entry is pruned,
because the this.changes === 0 rejection of lines 421-423 is dead code
(the .bind(this) at line 434 shadows the sqlite3 row count) -- and every
row of the table after a stop or cancel is either an untouched old row or
an old row that was active and is now completed (stop) or cancelled
(cancel), so active -> completed and active -> cancelled are the only
transitions either operation performs. -/
theorem terminal_status_immutable
    (s : StoreState) (r : SessionRow) (sid uid reason : String) (now : Int)
    (hnodup : (s.table.map SessionRow.id).Nodup)
    (hr : r ∈ s.table)
    (hterm : r.status = RowStatus.completed ∨ r.status = RowStatus.cancelled) :
    (stopLearningSession s sid uid now).2.table.filter
        (fun x => decide (x.id = r.id)) = [r]
    ∧ (cancelSession s sid reason).2.table.filter
        (fun x => decide (x.id = r.id)) = [r]
    ∧ ((∃ e, (stopLearningSession s r.id uid now).1 = OpOutcome.err e)
        ∧ (stopLearningSession s r.id uid now).2.table = s.table)
    ∧ cancelSession s r.id reason =
        (OpOutcome.ok { sessionId := r.id, reason := reason },
         { s with cache := cacheDelete s.cache r.id })
    ∧ (∀ x ∈ (stopLearningSession s sid uid now).2.table,
        x ∈ s.table ∨ ∃ y ∈ s.table, y.id = x.id
          ∧ y.status = RowStatus.active ∧ x.status = RowStatus.completed)
    ∧ (∀ x ∈ (cancelSession s sid reason).2.table,
        x ∈ s.table ∨ ∃ y ∈ s.table, y.id = x.id
          ∧ y.status = RowStatus.active ∧ x.status = RowStatus.cancelled) := by
  have hterm' : ¬ r.status = RowStatus.active := by
    rcases hterm with h | h <;> simp [h]
  have hbase : s.table.filter (fun x => decide (x.id = r.id)) = [r] :=
    filter_id_unique hnodup hr
  have huniq : ∀ x ∈ s.table, x.id = r.id → x = r := by
    intro x hx hxid
    exact row_eq_of_nodup_ids hnodup hx hr hxid
  refine ⟨?_, ?_, ?_, ?_, ?_, ?_⟩
  · rcases stop_table_cases s sid uid now with hT | ⟨row, hfind, hT⟩
    · rw [hT]
      exact hbase
    · rw [hT]
      have hprow := List.find?_some hfind
      simp only [decide_eq_true_eq] at hprow
      have hrowmem := List.mem_of_find?_eq_some hfind
      have hrne : ¬ r.id = sid := by
        intro hid
        have hrowr : row = r := huniq row hrowmem (by rw [hprow.1, hid])
        exact hterm' (hrowr ▸ hprow.2)
      rw [filter_map_id_pres (stopUpdateRow_id sid now _), hbase]
      simp [stopUpdateRow, hrne]
  · rw [cancel_table_eq, filter_map_id_pres (cancelUpdateRow_id sid reason), hbase]
    simp [cancelUpdateRow, hterm']
  · cases hc : cacheGet s.cache r.id with
    | none =>
      refine ⟨⟨TrackerError.noActiveSessionFound, ?_⟩, ?_⟩ <;>
        rw [stop_of_cache_miss hc]
    | some e =>
      have hfindnone : s.table.find?
          (fun x => decide (x.id = r.id ∧ x.status = RowStatus.active)) = none := by
        apply find_none_of_all
        intro x hx
        apply decide_eq_false
        rintro ⟨hxid, hxact⟩
        exact hterm' ((huniq x hx hxid) ▸ hxact)
      have hstop2 : stopLearningSession s r.id uid now =
          (OpOutcome.err TrackerError.sessionNotFoundOrCompleted,
           { s with cache := cacheDelete s.cache r.id }) := by
        unfold stopLearningSession
        rw [hc, hfindnone]
      refine ⟨⟨TrackerError.sessionNotFoundOrCompleted, ?_⟩, ?_⟩ <;> rw [hstop2]
  · have hmap : s.table.map (cancelUpdateRow r.id reason) = s.table := by
      apply map_id_on
      intro x hx
      unfold cancelUpdateRow
      rw [if_neg]
      rintro ⟨hxid, hxact⟩
      exact hterm' ((huniq x hx hxid) ▸ hxact)
    unfold cancelSession
    rw [hmap]
  · intro x hx
    rcases stop_table_cases s sid uid now with hT | ⟨row, hfind, hT⟩
    · rw [hT] at hx
      exact Or.inl hx
    · rw [hT] at hx
      obtain ⟨y, hy, hgy⟩ := List.mem_map.1 hx
      have hprow := List.find?_some hfind
      simp only [decide_eq_true_eq] at hprow
      have hrowmem := List.mem_of_find?_eq_some hfind
      by_cases hyid : y.id = sid
      · have hyrow : y = row :=
          row_eq_of_nodup_ids hnodup hy hrowmem (by rw [hyid, hprow.1])
        right
        refine ⟨y, hy, ?_, ?_, ?_⟩
        · rw [← hgy]
          exact (stopUpdateRow_id sid now _ y).symm
        · rw [hyrow]
          exact hprow.2
        · rw [← hgy]
          simp [stopUpdateRow, hyid]
      · left
        rw [← hgy]
        simp only [stopUpdateRow, if_neg hyid]
        exact hy
  · intro x hx
    rw [cancel_table_eq] at hx
    obtain ⟨y, hy, hgy⟩ := List.mem_map.1 hx
    by_cases hcond : y.id = sid ∧ y.status = RowStatus.active
    · right
      refine ⟨y, hy, ?_, hcond.2, ?_⟩
      · rw [← hgy]
        exact (cancelUpdateRow_id sid reason y).symm
      · rw [← hgy]
        simp [cancelUpdateRow, hcond.1, hcond.2]
    · left
      rw [← hgy]
      simp only [cancelUpdateRow, if_neg hcond]
      exact hy

/-- Completed row used by the C10 witness. -/
def c10Done : SessionRow :=
  { id := "session_1_ooooooooo", userId := "dave", startTime := 0,
    endTime := some 1000, durationSeconds := some 1,
    status := RowStatus.completed, timezoneOffset := 0, sessionData := [] }

/-- Store used by the C10 witness. -/
def c10State : StoreState :=
  { table := [c10Done], cache := [], initialized := true }

/-- C10 counterexample: cancelling the already-completed session c10Done
resolves success with the store byte for byte unchanged -- the call does
not fail with a not-found error, because the this.changes === 0 rejection
of time-tracker.js lines 421-423 never fires: the callback is bound with
.bind(this) (line 434), so this.changes is an undefined property of the
service instance, never 0.  This refutes the original claim that a cancel
aimed at a terminal row fails. -/
theorem cancel_terminal_succeeds_cex :
    c10Done.status = RowStatus.completed
    ∧ cancelSession c10State "session_1_ooooooooo" "oops" =
        (OpOutcome.ok { sessionId := "session_1_ooooooooo", reason := "oops" },
         c10State) := by
  decide

/-- Witness for the amended C10: stopping the already-completed session
fails and leaves the durable table as it was. -/
theorem terminal_status_immutable_witness :
    (∃ e, (stopLearningSession c10State "session_1_ooooooooo" "dave" 99).1 =
        OpOutcome.err e)
    ∧ (stopLearningSession c10State "session_1_ooooooooo" "dave" 99).2.table =
        c10State.table :=
  (terminal_status_immutable c10State c10Done "session_1_ppppppppp" "dave"
      "oops" 99 (by decide) (by decide) (Or.inl rfl)).2.2.1

end LearningTracker
